import Mathlib

/-!
Shallow embedding of the Soya Excel backend core (Django models and view
actions for clients, routes and deliveries), together with proofs that
settle the spec claims C1-C10.

Django `Decimal` fields are modelled as `ℚ`, timestamps as `ℕ`, nullable
fields as `Option`, and fallible view actions as `Except String`.
Persistence (`.save()` round-trips through the database) is modelled as
explicit state passing; the business rules that `Order.save` applies to
the in-memory instance are translated faithfully.
-/

namespace SoyaExcel

/-- Farmer.PRIORITY_CHOICES from clients/models.py. -/
inductive FarmerPriority
  | high
  | medium
  | low
deriving DecidableEq, Repr

/-- FeedStorage (clients/models.py): the per-site storage ledger.
Decimal fields are `ℚ`; only the fields the claims touch are kept.  The
two low-stock thresholds are `null=True` in the source (and writable to
null through the serializer), so they are `Option ℚ` here, with the
model defaults 1 and 20. -/
structure FeedStorage where
  capacity : ℚ
  current_quantity : ℚ
  low_stock_threshold_tonnes : Option ℚ := some 1
  low_stock_threshold_percentage : Option ℚ := some 20
deriving DecidableEq, Repr

/-- FeedStorage.percentage_remaining: `(current/capacity)*100` when
`capacity > 0`, else `0`. -/
def FeedStorage.percentage_remaining (s : FeedStorage) : ℚ :=
  if 0 < s.capacity then s.current_quantity / s.capacity * 100 else 0

/-- FeedStorage.is_low_stock: below the absolute threshold OR below the
percentage threshold.  In the source the absolute comparison runs first
and a null threshold raises `TypeError` (`Decimal <= None`, or
`float(None)` for the percentage), modelled as `.error`. -/
def FeedStorage.is_low_stock (s : FeedStorage) : Except String Bool :=
  match s.low_stock_threshold_tonnes with
  | none => .error "TypeError"
  | some t =>
      match s.low_stock_threshold_percentage with
      | none => .error "TypeError"
      | some p =>
          .ok (decide (s.current_quantity ≤ t) ||
               decide (s.percentage_remaining ≤ p))

/-- FeedStorage.is_emergency_level: at most 0.5 t OR at most 10 % remaining. -/
def FeedStorage.is_emergency_level (s : FeedStorage) : Bool :=
  decide (s.current_quantity ≤ 1/2) || decide (s.percentage_remaining ≤ 10)

/-- FeedStorageViewSet.update_quantity (clients/views.py): the sensor
update endpoint.  A missing body value is a 400 error; otherwise the
supplied value is stored directly (no clamping in the source). -/
def FeedStorage.update_quantity (s : FeedStorage) (q : Option ℚ) :
    Except String FeedStorage :=
  match q with
  | none => .error "current_quantity is required"
  | some v => .ok { s with current_quantity := v }

/-- Farmer (clients/models.py): only the fields the claims touch. -/
structure Farmer where
  priority : Option FarmerPriority := some .medium
  latitude : Option ℚ := none
  feed_storage : Option FeedStorage := none
deriving DecidableEq, Repr

/-- Order.STATUS_CHOICES. -/
inductive OrderStatus
  | pending
  | confirmed
  | planned
  | in_transit
  | delivered
  | cancelled
deriving DecidableEq, Repr

/-- Order.ORDER_TYPE_CHOICES. -/
inductive OrderType
  | contract
  | on_demand
  | emergency
  | proactive
deriving DecidableEq, Repr

/-- Order.PRIORITY_CHOICES. -/
inductive OrderPriority
  | low
  | medium
  | high
  | urgent
deriving DecidableEq, Repr

/-- Order (clients/models.py).  Foreign keys to routes, drivers, vehicles
and users are modelled as numeric ids. -/
structure Order where
  farmer : Farmer
  quantity : ℚ
  order_type : Option OrderType := some .on_demand
  priority : OrderPriority := .medium
  status : OrderStatus := .pending
  order_date : ℕ := 0
  expected_delivery_date : Option ℕ := none
  actual_delivery_date : Option ℕ := none
  planning_week : String := ""
  assigned_route : Option ℕ := none
  assigned_driver : Option ℕ := none
  assigned_vehicle : Option ℕ := none
  is_urgent : Bool := false
  requires_approval : Bool := false
  approved_by : Option ℕ := none
  approved_at : Option ℕ := none
deriving DecidableEq, Repr

/-- `self.expected_delivery_date and self.expected_delivery_date < cutoff`:
true exactly when the optional date is present and before the cutoff. -/
def date_before (d : Option ℕ) (cutoff : ℕ) : Bool :=
  match d with
  | some x => decide (x < cutoff)
  | none => false

/-- `storage.current_quantity + quantity > storage.capacity` guarded by
the `hasattr` check: false when the farmer has no feed storage. -/
def capacity_exceeded (fs : Option FeedStorage) (quantity : ℚ) : Bool :=
  match fs with
  | some storage => decide (storage.capacity < storage.current_quantity + quantity)
  | none => false

/-- Order.clean (clients/models.py): model-level validation, three
sequential raises of `ValidationError` (modelled as `.error`):
non-positive quantity, delivery date before the order date, and the
order quantity exceeding the farmer's storage capacity. -/
def Order.clean (o : Order) : Except String Unit :=
  if o.quantity ≤ 0 then
    .error "Quantity must be greater than 0"
  else if date_before o.expected_delivery_date o.order_date then
    .error "Expected delivery date cannot be before order date"
  else if capacity_exceeded o.farmer.feed_storage o.quantity then
    .error "Order quantity would exceed storage capacity"
  else
    .ok ()

/-- First block of Order.save (clients/models.py): emergency orders are
forced to urgent priority and flagged urgent; otherwise a high-priority
farmer forces high priority. -/
def Order.apply_priority (o : Order) : Order :=
  if o.order_type = some OrderType.emergency then
    { o with priority := .urgent, is_urgent := true }
  else if o.farmer.priority = some FarmerPriority.high then
    { o with priority := .high }
  else o

/-- Second block of Order.save: `requires_approval` is switched on for
quantity above 10 t, emergency type, or a high-priority farmer. -/
def Order.apply_approval (o : Order) : Order :=
  if 10 < o.quantity ∨ o.order_type = some OrderType.emergency ∨
      o.farmer.priority = some FarmerPriority.high then
    { o with requires_approval := true }
  else o

/-- Order.save (clients/models.py): the business rules applied on every
save, in source order (priority block, then approval block).  The
expedition-number generation (a persistence identifier derived from the
database primary key) is not modelled. -/
def Order.save (o : Order) : Order := o.apply_priority.apply_approval

/-- Order.can_be_confirmed: pending and not awaiting approval. -/
def Order.can_be_confirmed (o : Order) : Bool :=
  decide (o.status = .pending) && !o.requires_approval

/-- Order.can_be_planned: confirmed or pending, and not awaiting approval. -/
def Order.can_be_planned (o : Order) : Bool :=
  (decide (o.status = .confirmed) || decide (o.status = .pending)) &&
    !o.requires_approval

/-- Order.approve_order: no-op failure unless approval is required;
otherwise clears the flag, records approver and timestamp, and saves. -/
def Order.approve_order (o : Order) (user now : ℕ) : Bool × Order :=
  if !o.requires_approval then (false, o)
  else
    (true, ({ o with requires_approval := false, approved_by := some user,
                     approved_at := some now } : Order).save)

/-- Order.confirm_order: fails leaving the order untouched unless
`can_be_confirmed`; otherwise sets status to confirmed and saves. -/
def Order.confirm_order (o : Order) : Bool × Order :=
  if !o.can_be_confirmed then (false, o)
  else (true, ({ o with status := .confirmed } : Order).save)

/-- Order.plan_order: fails unless `can_be_planned`; otherwise records the
planning week, sets status to planned and saves. -/
def Order.plan_order (o : Order) (week : String) : Bool × Order :=
  if !o.can_be_planned then (false, o)
  else
    (true, ({ o with status := .planned, planning_week := week } : Order).save)

/-- Order.assign_to_route: unconditionally sets the route reference (and
optionally driver and vehicle), forces status to planned, saves, and
reports success. -/
def Order.assign_to_route (o : Order) (route : ℕ) (driver vehicle : Option ℕ) :
    Bool × Order :=
  let o1 := { o with assigned_route := some route }
  let o2 := match driver with
            | some d => { o1 with assigned_driver := some d }
            | none => o1
  let o3 := match vehicle with
            | some v => { o2 with assigned_vehicle := some v }
            | none => o2
  (true, ({ o3 with status := .planned } : Order).save)

/-- OrderViewSet._handle_status_transition (clients/views.py): when an
order has just become delivered, stamp the actual delivery date, save,
and add the order quantity to the farmer's feed storage (no clamping in
the source). -/
def handle_status_transition (o : Order) (old_status : OrderStatus) (now : ℕ) :
    Order :=
  if o.status = .delivered ∧ old_status ≠ .delivered then
    let o1 := ({ o with actual_delivery_date := some now } : Order).save
    match o1.farmer.feed_storage with
    | some storage =>
        let storage' : FeedStorage :=
          { storage with current_quantity := storage.current_quantity + o1.quantity }
        let farmer' : Farmer := { o1.farmer with feed_storage := some storage' }
        { o1 with farmer := farmer' }
    | none => o1
  else o

/-- OrderViewSet.update_status (clients/views.py): applies any requested
valid status (validity is by construction of `OrderStatus`), stamps the
delivery date when moving to delivered, saves, and runs the
status-transition hook.  The source performs no check on the previous
status. -/
def update_status (o : Order) (new_status : OrderStatus) (now : ℕ) : Order :=
  let old := o.status
  let o1 := { o with status := new_status }
  let o2 := if new_status = .delivered then
              { o1 with actual_delivery_date := some now }
            else o1
  let o3 := o2.save
  handle_status_transition o3 old now

/-- OrderSerializer.validate (clients/serializers.py): two sequential
raises — a delivery date in the past, then a non-positive quantity. -/
def OrderSerializer.validate (quantity : ℚ)
    (expected_delivery_date : Option ℕ) (now : ℕ) : Except String Unit :=
  if date_before expected_delivery_date now then
    .error "Expected delivery date cannot be in the past"
  else if quantity ≤ 0 then
    .error "Quantity must be greater than 0"
  else
    .ok ()

/-- The API order-creation path (OrderViewSet.perform_create →
OrderSerializer.save → Order.save): serializer field validation, then
the model save with its business rules.  Nothing on this path ever
invokes `Order.clean` (neither DRF nor `Order.save` calls it), so the
capacity check in `Order.clean` does not run at creation.  An error
carries no order, i.e. leaves nothing persisted. -/
def api_create_order (farmer : Farmer) (quantity : ℚ)
    (order_type : Option OrderType) (priority : OrderPriority)
    (expected_delivery_date : Option ℕ) (now : ℕ) : Except String Order :=
  match OrderSerializer.validate quantity expected_delivery_date now with
  | .error e => .error e
  | .ok _ =>
      .ok ({ farmer := farmer, quantity := quantity, order_type := order_type,
             priority := priority, status := .pending, order_date := now,
             expected_delivery_date := expected_delivery_date } : Order).save

/-- Route.STATUS_CHOICES (route/models.py). -/
inductive RouteStatus
  | draft
  | planned
  | active
  | completed
  | cancelled
  | delayed
deriving DecidableEq, Repr

/-- RouteStop (route/models.py): one order's stop on a route; only the
fields the claims touch are kept. -/
structure RouteStop where
  id : ℕ
  farmer : Farmer
  order : Order
  sequence_number : ℕ
  is_completed : Bool := false
deriving DecidableEq, Repr

/-- Route (route/models.py): only the fields the claims touch. -/
structure Route where
  status : RouteStatus := .draft
  stops : List RouteStop := []
  total_distance : Option ℚ := none
  estimated_duration : Option ℕ := none
  optimized_sequence : List ℕ := []
deriving DecidableEq, Repr

/-- RouteViewSet.complete (route/views.py): legal exactly when the route
is active; transitions it to completed and bulk-marks every stop
completed.  The stops' orders are not touched. -/
def Route.complete (r : Route) : Except String Route :=
  if r.status ≠ RouteStatus.active then
    .error "Only active routes can be completed"
  else
    .ok { r with status := .completed,
                 stops := r.stops.map (fun s => { s with is_completed := true }) }

/-- The sort key used by the fallback optimization:
`s.farmer.latitude or 0`, i.e. a missing latitude ranks as 0 (Python's
`or` also sends an exact 0 to 0, which is the same value). -/
def stop_sort_key (s : RouteStop) : ℚ :=
  match s.farmer.latitude with
  | some l => l
  | none => 0

/-- Comparison of stops by their sort key. -/
def stop_le (a b : RouteStop) : Prop := stop_sort_key a ≤ stop_sort_key b

instance : DecidableRel stop_le :=
  fun a b => inferInstanceAs (Decidable (stop_sort_key a ≤ stop_sort_key b))

instance : IsTotal RouteStop stop_le :=
  ⟨fun a b => le_total (stop_sort_key a) (stop_sort_key b)⟩

instance : IsTrans RouteStop stop_le :=
  ⟨fun _ _ _ hab hbc => le_trans hab hbc⟩

/-- `for i, stop in enumerate(stops): stop.sequence_number = i + 1` -/
def renumber : ℕ → List RouteStop → List RouteStop
  | _, [] => []
  | n, s :: rest => { s with sequence_number := n } :: renumber (n + 1) rest

/-- RouteViewSet.optimize (route/views.py), fallback path (the external
geometry provider is mocked): with at least two stops, sorts the stops by
farmer latitude (missing ranks 0, stable sort), renumbers them 1..N,
and stores the mock distance (15.5 km per stop), duration (45 min per
stop) and the optimized id sequence; with fewer stops it is a 400 error.
The side `RouteOptimization` log record is not modelled. -/
def Route.optimize (r : Route) : Except String Route :=
  if 1 < r.stops.length then
    let sorted := List.insertionSort stop_le r.stops
    let stops' := renumber 1 sorted
    .ok { r with stops := stops',
                 total_distance := some ((r.stops.length : ℚ) * (31/2)),
                 estimated_duration := some (r.stops.length * 45),
                 optimized_sequence := stops'.map (fun s => s.id) }
  else
    .error "Route must have at least 2 stops to optimize"

/-- Delivery (driver/models.py): only the fields the KPI claim touches. -/
structure Delivery where
  total_quantity_delivered : ℚ := 0
  actual_distance_km : Option ℚ := none
deriving DecidableEq, Repr

/-- Delivery.km_per_tonne (driver/models.py): Python truthiness guard —
the quotient is returned only when both `total_quantity_delivered` and
`actual_distance_km` are truthy (non-null and non-zero); otherwise the
number 0 is returned. -/
def Delivery.km_per_tonne (d : Delivery) : ℚ :=
  match d.actual_distance_km with
  | some dist =>
      if d.total_quantity_delivered ≠ 0 ∧ dist ≠ 0 then
        dist / d.total_quantity_delivered
      else 0
  | none => 0

/-- Modelled from the spec's words (for comparison with the source's
`Delivery.km_per_tonne`): `distance_per_unit` is null when
`total_quantity_delivered = 0` and the quotient otherwise. -/
def distance_per_unit_spec (d : Delivery) : Option ℚ :=
  if d.total_quantity_delivered = 0 then none
  else some (d.actual_distance_km.getD 0 / d.total_quantity_delivered)

/-! Helper lemmas: which fields the save-time business rules leave
untouched. -/

theorem Order.apply_priority_farmer (o : Order) :
    o.apply_priority.farmer = o.farmer := by
  unfold Order.apply_priority; split_ifs <;> rfl

theorem Order.apply_priority_quantity (o : Order) :
    o.apply_priority.quantity = o.quantity := by
  unfold Order.apply_priority; split_ifs <;> rfl

theorem Order.apply_priority_status (o : Order) :
    o.apply_priority.status = o.status := by
  unfold Order.apply_priority; split_ifs <;> rfl

theorem Order.apply_priority_assigned_route (o : Order) :
    o.apply_priority.assigned_route = o.assigned_route := by
  unfold Order.apply_priority; split_ifs <;> rfl

theorem Order.apply_priority_order_type (o : Order) :
    o.apply_priority.order_type = o.order_type := by
  unfold Order.apply_priority; split_ifs <;> rfl

theorem Order.apply_approval_farmer (o : Order) :
    o.apply_approval.farmer = o.farmer := by
  unfold Order.apply_approval; split_ifs <;> rfl

theorem Order.apply_approval_quantity (o : Order) :
    o.apply_approval.quantity = o.quantity := by
  unfold Order.apply_approval; split_ifs <;> rfl

theorem Order.apply_approval_status (o : Order) :
    o.apply_approval.status = o.status := by
  unfold Order.apply_approval; split_ifs <;> rfl

theorem Order.apply_approval_assigned_route (o : Order) :
    o.apply_approval.assigned_route = o.assigned_route := by
  unfold Order.apply_approval; split_ifs <;> rfl

theorem Order.apply_approval_priority (o : Order) :
    o.apply_approval.priority = o.priority := by
  unfold Order.apply_approval; split_ifs <;> rfl

theorem Order.save_farmer (o : Order) : o.save.farmer = o.farmer := by
  unfold Order.save
  rw [Order.apply_approval_farmer, Order.apply_priority_farmer]

theorem Order.save_quantity (o : Order) : o.save.quantity = o.quantity := by
  unfold Order.save
  rw [Order.apply_approval_quantity, Order.apply_priority_quantity]

theorem Order.save_status (o : Order) : o.save.status = o.status := by
  unfold Order.save
  rw [Order.apply_approval_status, Order.apply_priority_status]

theorem Order.save_assigned_route (o : Order) :
    o.save.assigned_route = o.assigned_route := by
  unfold Order.save
  rw [Order.apply_approval_assigned_route, Order.apply_priority_assigned_route]

theorem handle_status_transition_status (o : Order) (old : OrderStatus)
    (now : ℕ) : (handle_status_transition o old now).status = o.status := by
  unfold handle_status_transition
  split_ifs with h
  · cases hf : (({ o with actual_delivery_date := some now } : Order).save).farmer.feed_storage <;>
      simp [hf, Order.save_status]
  · rfl

theorem update_status_status (o : Order) (ns : OrderStatus) (now : ℕ) :
    (update_status o ns now).status = ns := by
  unfold update_status
  split_ifs with h <;>
    simp [handle_status_transition_status, Order.save_status]

/-- Forget a stop's sequence number (used to speak about the stop
multiset that `Route.optimize` permutes before renumbering). -/
def erase_seq (s : RouteStop) : RouteStop := { s with sequence_number := 0 }

theorem stop_sort_key_update (s : RouteStop) (n : ℕ) :
    stop_sort_key { s with sequence_number := n } = stop_sort_key s := rfl

theorem renumber_map_erase_seq (l : List RouteStop) :
    ∀ n, (renumber n l).map erase_seq = l.map erase_seq := by
  induction l with
  | nil => intro n; rfl
  | cons s rest ih =>
      intro n
      simp only [renumber, List.map_cons, ih]
      rfl

theorem renumber_map_seq (l : List RouteStop) :
    ∀ n, (renumber n l).map (fun s => s.sequence_number) =
      List.range' n l.length := by
  induction l with
  | nil => intro n; rfl
  | cons s rest ih =>
      intro n
      simp only [renumber, List.map_cons, ih, List.length_cons, List.range']

theorem mem_renumber_key (l : List RouteStop) :
    ∀ n b, b ∈ renumber n l → ∃ a ∈ l, stop_sort_key b = stop_sort_key a := by
  induction l with
  | nil => intro n b hb; cases hb
  | cons s rest ih =>
      intro n b hb
      rcases List.mem_cons.mp hb with hb | hb
      · exact ⟨s, List.mem_cons_self s rest, by rw [hb]; rfl⟩
      · obtain ⟨a, ha, hk⟩ := ih (n + 1) b hb
        exact ⟨a, List.mem_cons_of_mem s ha, hk⟩

theorem renumber_pairwise (l : List RouteStop) (h : l.Pairwise stop_le) :
    ∀ n, (renumber n l).Pairwise stop_le := by
  induction l with
  | nil => intro n; exact List.Pairwise.nil
  | cons s rest ih =>
      intro n
      rcases List.pairwise_cons.mp h with ⟨hs, hrest⟩
      refine List.pairwise_cons.mpr ⟨?_, ih hrest (n + 1)⟩
      intro b hb
      obtain ⟨a, ha, hk⟩ := mem_renumber_key rest (n + 1) b hb
      unfold stop_le
      rw [stop_sort_key_update, hk]
      exact hs a ha

/-! Claim theorems. -/

/-- Capacity-0 storage whose absolute low-stock threshold is null — a
state the serializer can write (the threshold fields are null=True). -/
def null_threshold_storage : FeedStorage :=
  { capacity := 0, current_quantity := 3,
    low_stock_threshold_tonnes := none }

/-- C10 counterexample: with a null absolute threshold, `is_low_stock`
raises `TypeError` in the source (`Decimal <= None`), so the derived
predicate is not defined for every storage state — even though the
capacity-0 division guard itself works. -/
theorem C10_counterexample :
    null_threshold_storage.capacity = 0 ∧
    null_threshold_storage.is_low_stock = Except.error "TypeError" :=
  ⟨rfl, rfl⟩

/-- C10 (amended): for a storage with capacity 0, `percentage_remaining`
is 0 rather than a division-by-zero error, and `is_emergency_level`
(which reads no nullable field) is total — and true, since 0 % ≤ 10 %;
`is_low_stock`, however, is defined exactly when both nullable
low-stock thresholds are present (a null threshold raises `TypeError`),
in which case it evaluates to the two threshold comparisons with the
percentage term at 0. -/
theorem C10_zero_capacity_amended (s : FeedStorage) (h : s.capacity = 0) :
    s.percentage_remaining = 0 ∧
    s.is_emergency_level = true ∧
    (s.is_low_stock.toOption ≠ none ↔
      (s.low_stock_threshold_tonnes ≠ none ∧
       s.low_stock_threshold_percentage ≠ none)) ∧
    (∀ t p, s.low_stock_threshold_tonnes = some t →
      s.low_stock_threshold_percentage = some p →
      s.is_low_stock =
        Except.ok (decide (s.current_quantity ≤ t) ||
                   decide ((0 : ℚ) ≤ p))) := by
  have hp : s.percentage_remaining = 0 := by
    unfold FeedStorage.percentage_remaining
    rw [h]
    norm_num
  refine ⟨hp, ?_, ?_, ?_⟩
  · unfold FeedStorage.is_emergency_level
    rw [hp]
    norm_num
  · unfold FeedStorage.is_low_stock
    cases s.low_stock_threshold_tonnes with
    | none => simp [Except.toOption]
    | some t =>
        cases s.low_stock_threshold_percentage with
        | none => simp [Except.toOption]
        | some p => simp [Except.toOption]
  · intro t p ht hpt
    unfold FeedStorage.is_low_stock
    rw [ht, hpt, hp]

/-- Concrete capacity-0 storage (default, non-null thresholds) for the
C10 witness. -/
def zero_cap_storage : FeedStorage :=
  { capacity := 0, current_quantity := 3 }

/-- C10 witness: the amended theorem applied at a concrete capacity-0
storage with both thresholds present. -/
theorem C10_witness :
    zero_cap_storage.percentage_remaining = 0 ∧
    zero_cap_storage.is_emergency_level = true ∧
    zero_cap_storage.is_low_stock =
      Except.ok (decide (zero_cap_storage.current_quantity ≤ 1) ||
                 decide ((0 : ℚ) ≤ 20)) :=
  ⟨(C10_zero_capacity_amended zero_cap_storage (by decide)).1,
   (C10_zero_capacity_amended zero_cap_storage (by decide)).2.1,
   (C10_zero_capacity_amended zero_cap_storage (by decide)).2.2.2 1 20
     rfl rfl⟩

/-- Concrete 10 t storage for the C1 counterexample. -/
def sensor_update_cex : FeedStorage :=
  { capacity := 10, current_quantity := 5 }

/-- The state produced by the C1 counterexample sensor update. -/
def sensor_update_cex_after : FeedStorage :=
  { capacity := 10, current_quantity := 15 }

/-- C1 counterexample: the sensor update accepts 15 t into a 10 t
storage and stores it as-is, so `current_quantity ≤ capacity` fails
after a sensor update — the claimed clamping does not exist in the
source. -/
theorem C1_counterexample :
    FeedStorage.update_quantity sensor_update_cex (some 15) =
      Except.ok sensor_update_cex_after ∧
    ¬ (sensor_update_cex_after.current_quantity ≤
        sensor_update_cex_after.capacity) :=
  ⟨rfl, by decide⟩

/-- C1 (amended): the sensor update stores exactly the supplied value
with no clamping, so the ledger invariant holds after it iff the input
itself lies in `[0, capacity]`; and delivery completion adds exactly the
order quantity to the storage, likewise unclamped. -/
theorem C1_storage_mutations (s : FeedStorage) (q : ℚ) (o : Order)
    (old : OrderStatus) (now : ℕ) :
    (FeedStorage.update_quantity s (some q) =
      Except.ok { s with current_quantity := q }) ∧
    (∀ s', FeedStorage.update_quantity s (some q) = Except.ok s' →
      ((0 ≤ s'.current_quantity ∧ s'.current_quantity ≤ s'.capacity) ↔
        (0 ≤ q ∧ q ≤ s.capacity))) ∧
    (o.farmer.feed_storage = some s → o.status = OrderStatus.delivered →
      old ≠ OrderStatus.delivered →
      (handle_status_transition o old now).farmer.feed_storage.map
          FeedStorage.current_quantity =
        some (s.current_quantity + o.quantity)) := by
  refine ⟨rfl, ?_, ?_⟩
  · intro s' h
    simp only [FeedStorage.update_quantity, Except.ok.injEq] at h
    subst h
    exact Iff.rfl
  · intro hf ho hold
    unfold handle_status_transition
    rw [if_pos ⟨ho, hold⟩]
    have hfo : (({ o with actual_delivery_date := some now } : Order).save).farmer
        = o.farmer := Order.save_farmer _
    have hq : (({ o with actual_delivery_date := some now } : Order).save).quantity
        = o.quantity := Order.save_quantity _
    simp only [hfo, hf, hq]
    rfl

/-- Concrete storage-backed delivered order for the C1 witness. -/
def c1_w_storage : FeedStorage :=
  { capacity := 40, current_quantity := 35 }

/-- Concrete order for the C1 witness. -/
def c1_w_order : Order :=
  { farmer := { feed_storage := some c1_w_storage }, quantity := 3,
    status := .delivered }

/-- C1 witness: the amended theorem applied at a concrete storage and a
concrete delivery completion. -/
theorem C1_witness :
    (FeedStorage.update_quantity c1_w_storage (some 20) =
      Except.ok { c1_w_storage with current_quantity := 20 }) ∧
    (handle_status_transition c1_w_order OrderStatus.in_transit 5).farmer.feed_storage.map
        FeedStorage.current_quantity =
      some (c1_w_storage.current_quantity + c1_w_order.quantity) :=
  ⟨(C1_storage_mutations c1_w_storage 20 c1_w_order OrderStatus.in_transit 5).1,
   (C1_storage_mutations c1_w_storage 20 c1_w_order OrderStatus.in_transit 5).2.2
     rfl rfl (by decide)⟩

/-- Concrete delivered order for the C2 counterexample and witness. -/
def delivered_order_cex : Order :=
  { farmer := {}, quantity := 5, status := .delivered }

/-- C2 counterexample: `update_status` moves a delivered order to
cancelled, so an order does transition out of delivered. -/
theorem C2_counterexample :
    delivered_order_cex.status = OrderStatus.delivered ∧
    (update_status delivered_order_cex OrderStatus.cancelled 0).status =
      OrderStatus.cancelled := by
  exact ⟨rfl, rfl⟩

/-- C2 (amended): the source guards no transition out of delivered —
`update_status` applies any requested status regardless of the current
one and `assign_to_route` forces status to planned, both also on a
delivered order; only `confirm_order` and `plan_order` leave a delivered
order unchanged (they fail outside pending/confirmed). -/
theorem C2_delivered_not_terminal (o : Order) (ns : OrderStatus)
    (now route : ℕ) (d v : Option ℕ) (h : o.status = OrderStatus.delivered) :
    (update_status o ns now).status = ns ∧
    (o.assign_to_route route d v).2.status = OrderStatus.planned ∧
    o.confirm_order = (false, o) ∧
    (∀ w, o.plan_order w = (false, o)) := by
  refine ⟨update_status_status o ns now, ?_, ?_, ?_⟩
  · unfold Order.assign_to_route
    cases d <;> cases v <;> simp [Order.save_status]
  · unfold Order.confirm_order Order.can_be_confirmed
    rw [h]
    simp
  · intro w
    unfold Order.plan_order Order.can_be_planned
    rw [h]
    simp

/-- C2 witness: the amended theorem applied at a concrete delivered
order. -/
theorem C2_witness :
    (update_status delivered_order_cex OrderStatus.pending 7).status =
      OrderStatus.pending ∧
    (delivered_order_cex.assign_to_route 3 none none).2.status =
      OrderStatus.planned :=
  ⟨(C2_delivered_not_terminal delivered_order_cex OrderStatus.pending 7 3
      none none rfl).1,
   (C2_delivered_not_terminal delivered_order_cex OrderStatus.pending 7 3
      none none rfl).2.1⟩

/-- Scenario A farmer: 40 t capacity, 35 t on hand. -/
def scenA_farmer : Farmer :=
  { feed_storage := some { capacity := 40, current_quantity := 35 } }

/-- The order that the API creation path persists for Scenario A. -/
def scenA_persisted : Order :=
  { farmer := scenA_farmer, quantity := 10, order_type := some .on_demand,
    priority := .medium, status := .pending, order_date := 0 }

/-- C3: the capacity check is dead code at creation.  The API creation
path accepts and persists Scenario A's 10 t order into a 40 t storage
holding 35 t — even though the capacity condition holds and the model's
own (never-invoked) `Order.clean` would reject exactly this order —
while a non-positive quantity is still rejected by the serializer. -/
theorem C3_capacity_check_dead :
    api_create_order scenA_farmer 10 (some .on_demand) .medium none 0 =
      Except.ok scenA_persisted ∧
    capacity_exceeded scenA_farmer.feed_storage scenA_persisted.quantity =
      true ∧
    Order.clean scenA_persisted =
      Except.error "Order quantity would exceed storage capacity" ∧
    (api_create_order scenA_farmer 0 (some .on_demand) .medium none
        0).toOption = none := by
  refine ⟨rfl, ?_, ?_, rfl⟩
  · norm_num [capacity_exceeded, scenA_farmer, scenA_persisted]
  · norm_num [Order.clean, capacity_exceeded, date_before, scenA_farmer,
      scenA_persisted]

/-- Concrete active route with one uncompleted stop, for C4. -/
def incomplete_route_cex : Route :=
  { status := .active,
    stops := [{ id := 1, farmer := {}, order := { farmer := {}, quantity := 5 },
                sequence_number := 1, is_completed := false }] }

/-- The route produced by completing `incomplete_route_cex`. -/
def incomplete_route_after : Route :=
  { status := .completed,
    stops := [{ id := 1, farmer := {}, order := { farmer := {}, quantity := 5 },
                sequence_number := 1, is_completed := true }] }

/-- C4 counterexample: completing a route whose only stop is not
completed succeeds — the source only checks that the route is active,
it never inspects the stops. -/
theorem C4_counterexample :
    incomplete_route_cex.stops.all (fun s => s.is_completed) = false ∧
    Route.complete incomplete_route_cex = Except.ok incomplete_route_after :=
  ⟨rfl, rfl⟩

/-- C4 (amended): `complete` is legal exactly when the route status is
active, regardless of stop completion; on success the route becomes
completed, every stop is force-marked completed, and the stops' orders
are untouched (so orders not already delivered stay non-delivered). -/
theorem C4_complete_route (r : Route) :
    ((Route.complete r).toOption ≠ none ↔ r.status = RouteStatus.active) ∧
    (∀ r', Route.complete r = Except.ok r' →
      r'.status = RouteStatus.completed ∧
      (∀ s' ∈ r'.stops, s'.is_completed = true) ∧
      r'.stops.map (fun s => s.order) = r.stops.map (fun s => s.order)) := by
  unfold Route.complete
  by_cases h : r.status = RouteStatus.active
  · rw [if_neg (by simp [h])]
    refine ⟨by simp [Except.toOption, h], ?_⟩
    intro r' hr'
    injection hr' with hr'
    subst hr'
    refine ⟨rfl, ?_, ?_⟩
    · intro s' hs'
      obtain ⟨a, _, ha⟩ := List.mem_map.mp hs'
      rw [← ha]
    · simp
  · rw [if_pos (by simp [h])]
    refine ⟨by simp [Except.toOption, h], ?_⟩
    intro r' hr'
    exact Except.noConfusion hr'

/-- C4 witness: the amended theorem applied at the concrete route. -/
theorem C4_witness :
    (Route.complete incomplete_route_cex).toOption ≠ none ∧
    incomplete_route_after.status = RouteStatus.completed :=
  ⟨(C4_complete_route incomplete_route_cex).1.mpr rfl,
   ((C4_complete_route incomplete_route_cex).2 incomplete_route_after rfl).1⟩

/-- Concrete delivery with zero delivered quantity, for C5. -/
def zero_qty_delivery_cex : Delivery :=
  { total_quantity_delivered := 0, actual_distance_km := some 100 }

/-- C5 counterexample: with 100 km driven and 0 t delivered the source
returns the number 0, while the spec-modelled metric is null — the
claimed null is actually a numeric default. -/
theorem C5_counterexample :
    zero_qty_delivery_cex.km_per_tonne = 0 ∧
    distance_per_unit_spec zero_qty_delivery_cex = none := by
  constructor
  · rfl
  · rfl

/-- C5 (amended): `km_per_tonne` evaluates to the number 0 — not null
and not an exception — whenever `total_quantity_delivered` is 0 or
`actual_distance_km` is null or 0; otherwise it is
`actual_distance_km / total_quantity_delivered`. -/
theorem C5_km_per_tonne (d : Delivery) :
    ((d.total_quantity_delivered = 0 ∨ d.actual_distance_km = none ∨
        d.actual_distance_km = some 0) → d.km_per_tonne = 0) ∧
    (∀ dist, d.actual_distance_km = some dist → dist ≠ 0 →
      d.total_quantity_delivered ≠ 0 →
      d.km_per_tonne = dist / d.total_quantity_delivered) := by
  constructor
  · intro h
    unfold Delivery.km_per_tonne
    cases hd : d.actual_distance_km with
    | none => rfl
    | some dist =>
        dsimp only
        rcases h with h | h | h
        · rw [if_neg]
          intro hcon
          exact hcon.1 h
        · rw [hd] at h
          exact Option.noConfusion h
        · rw [hd] at h
          injection h with h
          rw [if_neg]
          intro hcon
          exact hcon.2 h
  · intro dist hd hdist hq
    unfold Delivery.km_per_tonne
    rw [hd]
    dsimp only
    rw [if_pos ⟨hq, hdist⟩]

/-- Concrete delivery for the C5 witness: 100 km, 4 t. -/
def km_w_delivery : Delivery :=
  { total_quantity_delivered := 4, actual_distance_km := some 100 }

/-- Concrete empty delivery for the C5 witness. -/
def km_w_zero_delivery : Delivery :=
  { total_quantity_delivered := 0, actual_distance_km := none }

/-- C5 witness: the amended theorem applied at concrete deliveries. -/
theorem C5_witness :
    km_w_delivery.km_per_tonne = 100 / km_w_delivery.total_quantity_delivered ∧
    km_w_zero_delivery.km_per_tonne = 0 :=
  ⟨(C5_km_per_tonne km_w_delivery).2 100 rfl (by norm_num) (by decide),
   (C5_km_per_tonne km_w_zero_delivery).1 (Or.inl rfl)⟩

/-- C6: on every save, `requires_approval` is switched on when the
quantity exceeds 10 t, the type is emergency, or the farmer's priority
is high; and an emergency order's priority is forced to urgent. -/
theorem C6_save_sets_approval (o : Order) :
    ((10 < o.quantity ∨ o.order_type = some OrderType.emergency ∨
        o.farmer.priority = some FarmerPriority.high) →
      o.save.requires_approval = true) ∧
    (o.order_type = some OrderType.emergency →
      o.save.priority = OrderPriority.urgent) := by
  constructor
  · intro h
    unfold Order.save Order.apply_approval
    rw [if_pos]
    rw [Order.apply_priority_quantity, Order.apply_priority_order_type,
      Order.apply_priority_farmer]
    exact h
  · intro h
    unfold Order.save
    rw [Order.apply_approval_priority]
    unfold Order.apply_priority
    rw [if_pos h]

/-- Concrete 12 t order of a high-priority farmer, for the C6 witness. -/
def large_order_w : Order :=
  { farmer := { priority := some .high }, quantity := 12 }

/-- Concrete emergency order for the C6 witness. -/
def emergency_order_w : Order :=
  { farmer := {}, quantity := 2, order_type := some .emergency }

/-- C6 witness: the theorem applied at concrete orders. -/
theorem C6_witness :
    large_order_w.save.requires_approval = true ∧
    emergency_order_w.save.priority = OrderPriority.urgent :=
  ⟨(C6_save_sets_approval large_order_w).1 (Or.inl (by decide)),
   (C6_save_sets_approval emergency_order_w).2 rfl⟩

/-- C7: `confirm_order` succeeds exactly when the order is pending with
`requires_approval` cleared; on success the status becomes confirmed,
and on failure the order is returned unchanged. -/
theorem C7_confirm_exact (o : Order) :
    ((o.confirm_order.1 = true) ↔
      (o.status = OrderStatus.pending ∧ o.requires_approval = false)) ∧
    (o.confirm_order.1 = true →
      o.confirm_order.2.status = OrderStatus.confirmed) ∧
    (o.confirm_order.1 = false → o.confirm_order.2 = o) := by
  cases hc : o.can_be_confirmed with
  | true =>
      have hc' := hc
      unfold Order.can_be_confirmed at hc'
      simp only [Bool.and_eq_true, decide_eq_true_eq, Bool.not_eq_true'] at hc'
      refine ⟨⟨fun _ => hc', fun _ => ?_⟩, fun _ => ?_, fun hfalse => ?_⟩
      · simp [Order.confirm_order, hc]
      · simp [Order.confirm_order, hc, Order.save_status]
      · rw [Order.confirm_order, hc] at hfalse
        simp at hfalse
  | false =>
      have hc' := hc
      unfold Order.can_be_confirmed at hc'
      simp only [Bool.and_eq_false_iff, decide_eq_false_iff_not,
        Bool.not_eq_false'] at hc'
      refine ⟨⟨fun htrue => ?_, fun hok => ?_⟩, fun htrue => ?_, fun _ => ?_⟩
      · rw [Order.confirm_order, hc] at htrue
        simp at htrue
      · rcases hc' with hc' | hc'
        · exact absurd hok.1 hc'
        · rw [hok.2] at hc'
          simp at hc'
      · rw [Order.confirm_order, hc] at htrue
        simp at htrue
      · simp [Order.confirm_order, hc]

/-- Scenario B order: 12 t, high-priority farmer, still awaiting
approval. -/
def scenB_order : Order :=
  { farmer := { priority := some .high }, quantity := 12, status := .pending,
    requires_approval := true }

/-- Concrete confirmable order for the C7 witness. -/
def confirmable_order_w : Order :=
  { farmer := {}, quantity := 5, status := .pending,
    requires_approval := false }

/-- C7 witness: confirming succeeds on a clean pending order and leaves
the Scenario B order (approval pending) unchanged. -/
theorem C7_witness :
    confirmable_order_w.confirm_order.1 = true ∧
    confirmable_order_w.confirm_order.2.status = OrderStatus.confirmed ∧
    scenB_order.confirm_order.2 = scenB_order :=
  ⟨(C7_confirm_exact confirmable_order_w).1.mpr ⟨rfl, rfl⟩,
   (C7_confirm_exact confirmable_order_w).2.1
     ((C7_confirm_exact confirmable_order_w).1.mpr ⟨rfl, rfl⟩),
   (C7_confirm_exact scenB_order).2.2 rfl⟩

/-- C8: `assign_to_route` reports success and leaves the order with the
given route reference and status forced to planned, from any prior
status. -/
theorem C8_assign_route_forces_planned (o : Order) (route : ℕ)
    (d v : Option ℕ) :
    (o.assign_to_route route d v).1 = true ∧
    (o.assign_to_route route d v).2.status = OrderStatus.planned ∧
    (o.assign_to_route route d v).2.assigned_route = some route := by
  unfold Order.assign_to_route
  cases d <;> cases v <;>
    simp [Order.save_status, Order.save_assigned_route]

/-- C9: the fallback optimization of a route with at least 2 stops
returns a route whose stop list is a permutation of the input (after
forgetting the rewritten sequence numbers), is ordered by nondecreasing
farmer latitude with a missing latitude ranking as 0 (`stop_le`), and
whose sequence numbers are reassigned to the contiguous range 1..N. -/
theorem C9_optimize_fallback (r : Route) (h : 1 < r.stops.length) :
    (Route.optimize r).toOption ≠ none ∧
    (∀ r', Route.optimize r = Except.ok r' →
      (r'.stops.map erase_seq).Perm (r.stops.map erase_seq) ∧
      r'.stops.Pairwise stop_le ∧
      r'.stops.map (fun s => s.sequence_number) =
        List.range' 1 r.stops.length) := by
  unfold Route.optimize
  rw [if_pos h]
  refine ⟨by simp [Except.toOption], ?_⟩
  intro r' hr'
  injection hr' with hr'
  subst hr'
  refine ⟨?_, ?_, ?_⟩
  · rw [renumber_map_erase_seq]
    exact (List.perm_insertionSort stop_le r.stops).map erase_seq
  · exact renumber_pairwise _ (List.sorted_insertionSort stop_le r.stops) 1
  · rw [renumber_map_seq]
    rw [(List.perm_insertionSort stop_le r.stops).length_eq]

/-- Concrete three-stop route for the C9 witness: latitudes 5, missing,
and 3, so the fallback order is ids 11, 12, 10. -/
def opt_route_w : Route :=
  { status := .draft,
    stops := [
      { id := 10, farmer := { latitude := some 5 },
        order := { farmer := {}, quantity := 1 }, sequence_number := 1 },
      { id := 11, farmer := { latitude := none },
        order := { farmer := {}, quantity := 2 }, sequence_number := 2 },
      { id := 12, farmer := { latitude := some 3 },
        order := { farmer := {}, quantity := 3 }, sequence_number := 3 }] }

/-- The route produced by optimizing `opt_route_w`. -/
def opt_route_w_after : Route :=
  { status := .draft,
    stops := [
      { id := 11, farmer := { latitude := none },
        order := { farmer := {}, quantity := 2 }, sequence_number := 1 },
      { id := 12, farmer := { latitude := some 3 },
        order := { farmer := {}, quantity := 3 }, sequence_number := 2 },
      { id := 10, farmer := { latitude := some 5 },
        order := { farmer := {}, quantity := 1 }, sequence_number := 3 }],
    total_distance := some ((3 : ℕ) * (31 / 2 : ℚ)),
    estimated_duration := some 135,
    optimized_sequence := [11, 12, 10] }

/-- C9 witness: the theorem applied at the concrete route. -/
theorem C9_witness :
    (Route.optimize opt_route_w).toOption ≠ none ∧
    opt_route_w_after.stops.Pairwise stop_le ∧
    opt_route_w_after.stops.map (fun s => s.sequence_number) =
      List.range' 1 opt_route_w.stops.length :=
  ⟨(C9_optimize_fallback opt_route_w (by decide)).1,
   ((C9_optimize_fallback opt_route_w (by decide)).2 opt_route_w_after
     (by rfl)).2.1,
   ((C9_optimize_fallback opt_route_w (by decide)).2 opt_route_w_after
     (by rfl)).2.2⟩

end SoyaExcel
